import Mathlib

/-!
Shallow embedding of Stockfish's endgame-knowledge module (src/endgame.cpp)
and proofs about its evaluators.

Squares are numbered 0..63 as in the engine: square = 8 * rank + file,
with file 0 = FILE_A and rank 0 = RANK_1.  Rank and file constants RANK_k
and FILE_x of the engine correspond to the indices k-1 and x-'A'.
Values are embedded as unbounded integers (the engine's int arithmetic
never overflows in this file).

External collaborators used by the file but defined outside of it
(the KPK bitbase probe and the legal-move generator used for the one
stalemate check) are passed to the corresponding evaluators as explicit
function parameters, following the interface contracts of the spec.
-/

namespace Stockfish

inductive Color where
  | white
  | black
deriving DecidableEq, Repr

def Color.opp : Color → Color
  | .white => .black
  | .black => .white

/-- File index of a square (0 = FILE_A .. 7 = FILE_H). -/
def file_of (s : Nat) : Nat := s % 8

/-- Rank index of a square (0 = RANK_1 .. 7 = RANK_8). -/
def rank_of (s : Nat) : Nat := s / 8

/-- Absolute difference of two naturals. -/
def natDist (a b : Nat) : Nat := if a ≤ b then b - a else a - b

/-- Chebyshev distance between squares, the engine's distance(Square, Square). -/
def distance (a b : Nat) : Nat :=
  max (natDist (file_of a) (file_of b)) (natDist (rank_of a) (rank_of b))

/-- File distance, the engine's distance<File>(Square, Square). -/
def fileDistance (a b : Nat) : Nat := natDist (file_of a) (file_of b)

/-- Horizontal mirror (A1 <-> H1), the engine's Square(square ^ 7). -/
def mirrorH (s : Nat) : Nat := s ^^^ 7

/-- Vertical mirror (A1 <-> A8), the engine's ~square = Square(square ^ 56). -/
def mirrorV (s : Nat) : Nat := s ^^^ 56

/-- A square seen from color c's own point of view (relative_square). -/
def relative_square (c : Color) (s : Nat) : Nat :=
  if c = Color.white then s else mirrorV s

/-- Rank of a square from color c's own point of view (relative_rank). -/
def relative_rank (c : Color) (s : Nat) : Nat := rank_of (relative_square c s)

/-- Two squares have different colors (opposite_colors). -/
def opposite_colors (a b : Nat) : Prop :=
  (rank_of a + file_of a) % 2 ≠ (rank_of b + file_of b) % 2

instance (a b : Nat) : Decidable (opposite_colors a b) := by
  unfold opposite_colors; infer_instance

/-- Push direction of color c's pawns (DELTA_N / DELTA_S), as a square offset. -/
def pawn_push (c : Color) : Int := if c = Color.white then 8 else -8

/-- Shift a square by a (possibly negative) offset. -/
def shiftSq (s : Nat) (d : Int) : Nat := ((s : Int) + d).toNat

/-- First square of a piece list, the engine's pos.list<PT>(c)[0]. -/
def sq0 (l : List Nat) : Nat := l.headD 0

/-- Table used to drive the king towards the edge of the board
in KX vs K and KQ vs KR endgames (PushToEdges). -/
def PushToEdges : List Int := [
  100, 90, 80, 70, 70, 80, 90, 100,
   90, 70, 60, 50, 50, 60, 70,  90,
   80, 60, 40, 30, 30, 40, 60,  80,
   70, 50, 30, 20, 20, 30, 50,  70,
   70, 50, 30, 20, 20, 30, 50,  70,
   80, 60, 40, 30, 30, 40, 60,  80,
   90, 70, 60, 50, 50, 60, 70,  90,
  100, 90, 80, 70, 70, 80, 90, 100]

/-- Table used to drive the king towards a corner square of the
right color in KBN vs K endgames (PushToCorners). -/
def PushToCorners : List Int := [
  200, 190, 180, 170, 160, 150, 140, 130,
  190, 180, 170, 160, 150, 140, 130, 140,
  180, 170, 155, 140, 140, 125, 140, 150,
  170, 160, 140, 120, 110, 140, 150, 160,
  160, 150, 140, 110, 120, 140, 160, 170,
  150, 140, 125, 140, 140, 155, 170, 180,
  140, 130, 140, 150, 160, 170, 180, 190,
  130, 140, 150, 160, 170, 180, 190, 200]

/-- Tables used to drive a piece towards or away from another piece. -/
def PushClose : List Int := [0, 0, 100, 80, 60, 40, 20, 10]

/-- Table rewarding keeping two pieces apart (PushAway). -/
def PushAway : List Int := [0, 5, 20, 40, 60, 80, 90, 100]

def pushToEdges (s : Nat) : Int := PushToEdges.getD s 0
def pushToCorners (s : Nat) : Int := PushToCorners.getD s 0
def pushClose (d : Nat) : Int := PushClose.getD d 0
def pushAway (d : Nat) : Int := PushAway.getD d 0

/-- Piece values, from the engine's types header (outside this file). -/
def PawnValueEg : Int := 258
def KnightValueMg : Int := 817
def BishopValueMg : Int := 836
def RookValueMg : Int := 1270
def QueenValueMg : Int := 2521
def RookValueEg : Int := 1278
def QueenValueEg : Int := 2558
def VALUE_DRAW : Int := 0
def VALUE_KNOWN_WIN : Int := 10000

/-- Modelled from the spec: the reserved scale-factor sentinel meaning
"no special-case knowledge" (SCALE_FACTOR_NONE in the engine's types header,
which is outside this file). -/
def SCALE_FACTOR_NONE : Int := 255

/-- Modelled from the spec: the minimum scale factor, meaning "force a draw". -/
def SCALE_FACTOR_DRAW : Int := 0

/-- Modelled from the spec: the maximum scale factor. -/
def SCALE_FACTOR_MAX : Int := 128

/-- A board position, as seen through the Position query interface used by
the evaluators: side to move, king squares and the piece lists per color. -/
structure Position where
  sideToMove : Color
  whiteKing : Nat
  blackKing : Nat
  whitePawns : List Nat
  blackPawns : List Nat
  whiteKnights : List Nat
  blackKnights : List Nat
  whiteBishops : List Nat
  blackBishops : List Nat
  whiteRooks : List Nat
  blackRooks : List Nat
  whiteQueens : List Nat
  blackQueens : List Nat
deriving DecidableEq, Repr

def Position.kingSq (pos : Position) : Color → Nat
  | .white => pos.whiteKing
  | .black => pos.blackKing

def Position.pawns (pos : Position) : Color → List Nat
  | .white => pos.whitePawns
  | .black => pos.blackPawns

def Position.knights (pos : Position) : Color → List Nat
  | .white => pos.whiteKnights
  | .black => pos.blackKnights

def Position.bishops (pos : Position) : Color → List Nat
  | .white => pos.whiteBishops
  | .black => pos.blackBishops

def Position.rooks (pos : Position) : Color → List Nat
  | .white => pos.whiteRooks
  | .black => pos.blackRooks

def Position.queens (pos : Position) : Color → List Nat
  | .white => pos.whiteQueens
  | .black => pos.blackQueens

def Position.pawnCount (pos : Position) (c : Color) : Nat := (pos.pawns c).length
def Position.knightCount (pos : Position) (c : Color) : Nat := (pos.knights c).length
def Position.bishopCount (pos : Position) (c : Color) : Nat := (pos.bishops c).length
def Position.rookCount (pos : Position) (c : Color) : Nat := (pos.rooks c).length
def Position.queenCount (pos : Position) (c : Color) : Nat := (pos.queens c).length

/-- Non-pawn material of one side (non_pawn_material), computed with the
middlegame piece values as in the engine. -/
def Position.nonPawnMaterial (pos : Position) (c : Color) : Int :=
  QueenValueMg * pos.queenCount c + RookValueMg * pos.rookCount c
  + BishopValueMg * pos.bishopCount c + KnightValueMg * pos.knightCount c

/-- Modelled from the spec: Position::bishop_pair is defined outside this
file; the side owns a bishop pair when it has at least two bishops standing
on squares of different colors. -/
def Position.bishopPair (pos : Position) (c : Color) : Prop :=
  2 ≤ (pos.bishops c).length
  ∧ opposite_colors (sq0 (pos.bishops c)) ((pos.bishops c).getD 1 0)

instance (pos : Position) (c : Color) : Decidable (pos.bishopPair c) := by
  unfold Position.bishopPair; infer_instance

/-- Every occupied square of the board (used as occupancy for slider attacks). -/
def Position.allSquares (pos : Position) : List Nat :=
  pos.whiteKing :: pos.blackKing ::
  (pos.whitePawns ++ pos.blackPawns ++ pos.whiteKnights ++ pos.blackKnights
   ++ pos.whiteBishops ++ pos.blackBishops ++ pos.whiteRooks ++ pos.blackRooks
   ++ pos.whiteQueens ++ pos.blackQueens)

def Position.occupied (pos : Position) (s : Nat) : Bool :=
  pos.allSquares.contains s

/-- Nat t is attacked by a king on s (StepAttacksBB for the king). -/
def kingAttack (s t : Nat) : Prop := distance s t = 1

instance (s t : Nat) : Decidable (kingAttack s t) := by
  unfold kingAttack; infer_instance

/-- Nat t is attacked by a pawn of color c standing on s
(StepAttacksBB for a pawn). -/
def pawnAttack (c : Color) (s t : Nat) : Prop :=
  fileDistance s t = 1
  ∧ (rank_of t : Int) = rank_of s + (if c = Color.white then 1 else -1)

instance (c : Color) (s t : Nat) : Decidable (pawnAttack c s t) := by
  unfold pawnAttack; infer_instance

/-- Step sign from a toward b. -/
def stepSign (a b : Nat) : Int := if a < b then 1 else -1

/-- The squares strictly between s and t on their common diagonal
(meaningful when s and t lie on a common diagonal). -/
def diagBetween (s t : Nat) : List Nat :=
  (List.range (natDist (file_of s) (file_of t) - 1)).map fun k =>
    (((rank_of s : Int) + (k + 1 : Nat) * stepSign (rank_of s) (rank_of t)) * 8
      + ((file_of s : Int) + (k + 1 : Nat) * stepSign (file_of s) (file_of t))).toNat

/-- Nat t is attacked by a bishop on s given the board occupancy
(attacks_from<BISHOP>): t lies on a common diagonal with s and no occupied
square stands strictly between them. -/
def bishopAttack (occ : Nat → Bool) (s t : Nat) : Prop :=
  t ≠ s
  ∧ natDist (file_of s) (file_of t) = natDist (rank_of s) (rank_of t)
  ∧ ∀ u ∈ diagBetween s t, occ u = false

instance (occ : Nat → Bool) (s t : Nat) : Decidable (bishopAttack occ s t) := by
  unfold bishopAttack; infer_instance

/-- Nat t lies in front of square s on the same file, from color c's
point of view (forward_bb). -/
def forwardSq (c : Color) (s t : Nat) : Prop :=
  file_of t = file_of s
  ∧ (if c = Color.white then rank_of s < rank_of t else rank_of t < rank_of s)

instance (c : Color) (s t : Nat) : Decidable (forwardSq c s t) := by
  unfold forwardSq; infer_instance

/-- Nat t lies on a rank strictly in front of rank r from color c's
point of view (in_front_bb). -/
def inFrontRank (c : Color) (r : Nat) (t : Nat) : Prop :=
  if c = Color.white then r < rank_of t else rank_of t < r

instance (c : Color) (r : Nat) (t : Nat) : Decidable (inFrontRank c r t) := by
  unfold inFrontRank; infer_instance

/-- The square of bitboard b nearest to color c's home rank
(backmost_sq: lsb for White, msb for Black; piece squares are listed). -/
def backmost_sq (c : Color) : List Nat → Nat
  | [] => 0
  | x :: xs => xs.foldl (fun a b => if c = Color.white then min a b else max a b) x

/-- Modelled from the spec: Position::pawn_passed is defined outside this
file.  A pawn of color c on square s is passed when no enemy pawn stands on
the same or an adjacent file on a rank strictly in front of it. -/
def pawn_passed (pos : Position) (c : Color) (s : Nat) : Prop :=
  ∀ e ∈ pos.pawns c.opp, ¬(fileDistance e s ≤ 1 ∧ inFrontRank c (rank_of s) e)

instance (pos : Position) (c : Color) (s : Nat) : Decidable (pawn_passed pos c s) := by
  unfold pawn_passed; infer_instance

/-- Map the square as if strongSide is white and strongSide's only pawn
is on the left half of the board (normalize). -/
def normalize (pos : Position) (strongSide : Color) (square : Nat) : Nat :=
  let square1 :=
    if 4 ≤ file_of (sq0 (pos.pawns strongSide)) then mirrorH square else square
  if strongSide = Color.black then mirrorV square1 else square1

/-- The same position with only the side to move swapped. -/
def flipStm (pos : Position) : Position :=
  { pos with sideToMove := pos.sideToMove.opp }

/-- Mate with KX vs K (Endgame<KXK>::operator()).  The legal-move generator
used for the stalemate guard is an external collaborator and is passed in
as the function legalMoves. -/
def evalKXK (legalMoves : Position → Nat) (strongSide : Color) (pos : Position) : Int :=
  let weakSide := strongSide.opp
  if pos.sideToMove = weakSide ∧ legalMoves pos = 0 then VALUE_DRAW
  else
    let winnerKingSquare := pos.kingSq strongSide
    let loserKingSquare := pos.kingSq weakSide
    let result : Int :=
      pos.nonPawnMaterial strongSide
      + (pos.pawnCount strongSide : Int) * PawnValueEg
      + pushToEdges loserKingSquare
      + pushClose (distance winnerKingSquare loserKingSquare)
    let result :=
      if 0 < pos.queenCount strongSide ∨ 0 < pos.rookCount strongSide
         ∨ (0 < pos.bishopCount strongSide ∧ 0 < pos.knightCount strongSide)
         ∨ pos.bishopPair strongSide
      then result + VALUE_KNOWN_WIN else result
    if strongSide = pos.sideToMove then result else -result

/-- Mate with KBN vs K (Endgame<KBNK>::operator()). -/
def evalKBNK (strongSide : Color) (pos : Position) : Int :=
  let winnerKingSquare := pos.kingSq strongSide
  let loserKingSquare := pos.kingSq strongSide.opp
  let bishopSquare := sq0 (pos.bishops strongSide)
  let winnerKingSquare :=
    if opposite_colors bishopSquare 0 then mirrorV winnerKingSquare else winnerKingSquare
  let loserKingSquare :=
    if opposite_colors bishopSquare 0 then mirrorV loserKingSquare else loserKingSquare
  let result : Int :=
    VALUE_KNOWN_WIN
    + pushClose (distance winnerKingSquare loserKingSquare)
    + pushToCorners loserKingSquare
  if strongSide = pos.sideToMove then result else -result

/-- KP vs K (Endgame<KPK>::operator()).  The bitbase is an external
collaborator and is passed in as the function probe. -/
def evalKPK (probe : Nat → Nat → Nat → Color → Bool)
    (strongSide : Color) (pos : Position) : Int :=
  let whiteKingSquare := normalize pos strongSide (pos.kingSq strongSide)
  let blackKingSquare := normalize pos strongSide (pos.kingSq strongSide.opp)
  let pawnSquare := normalize pos strongSide (sq0 (pos.pawns strongSide))
  let us : Color := if strongSide = pos.sideToMove then Color.white else Color.black
  if probe whiteKingSquare pawnSquare blackKingSquare us = false then VALUE_DRAW
  else
    let result : Int := VALUE_KNOWN_WIN + PawnValueEg + (rank_of pawnSquare : Int)
    if strongSide = pos.sideToMove then result else -result

/-- KR vs KP (Endgame<KRKP>::operator()). -/
def evalKRKP (strongSide : Color) (pos : Position) : Int :=
  let weakSide := strongSide.opp
  let whiteKingSquare := relative_square strongSide (pos.kingSq strongSide)
  let blackKingSquare := relative_square strongSide (pos.kingSq weakSide)
  let rookSquare := relative_square strongSide (sq0 (pos.rooks strongSide))
  let pawnSquare := relative_square strongSide (sq0 (pos.pawns weakSide))
  let queeningSquare := file_of pawnSquare
  let result : Int :=
    if whiteKingSquare < pawnSquare ∧ file_of whiteKingSquare = file_of pawnSquare then
      RookValueEg - (distance whiteKingSquare pawnSquare : Int)
    else if 3 + (if pos.sideToMove = weakSide then 1 else 0) ≤ distance blackKingSquare pawnSquare
            ∧ 3 ≤ distance blackKingSquare rookSquare then
      RookValueEg - (distance whiteKingSquare pawnSquare : Int)
    else if rank_of blackKingSquare ≤ 2
            ∧ distance blackKingSquare pawnSquare = 1
            ∧ 3 ≤ rank_of whiteKingSquare
            ∧ 2 + (if pos.sideToMove = strongSide then 1 else 0) < distance whiteKingSquare pawnSquare then
      80 - 8 * (distance whiteKingSquare pawnSquare : Int)
    else
      200 - 8 * ((distance whiteKingSquare (shiftSq pawnSquare (-8)) : Int)
                 - (distance blackKingSquare (shiftSq pawnSquare (-8)) : Int)
                 - (distance pawnSquare queeningSquare : Int))
  if strongSide = pos.sideToMove then result else -result

/-- KR vs KB (Endgame<KRKB>::operator()). -/
def evalKRKB (strongSide : Color) (pos : Position) : Int :=
  let result : Int := pushToEdges (pos.kingSq strongSide.opp)
  if strongSide = pos.sideToMove then result else -result

/-- KR vs KN (Endgame<KRKN>::operator()). -/
def evalKRKN (strongSide : Color) (pos : Position) : Int :=
  let blackKingSquare := pos.kingSq strongSide.opp
  let knightSquare := sq0 (pos.knights strongSide.opp)
  let result : Int :=
    pushToEdges blackKingSquare + pushAway (distance blackKingSquare knightSquare)
  if strongSide = pos.sideToMove then result else -result

/-- KQ vs KP (Endgame<KQKP>::operator()). -/
def evalKQKP (strongSide : Color) (pos : Position) : Int :=
  let weakSide := strongSide.opp
  let winnerKingSquare := pos.kingSq strongSide
  let loserKingSquare := pos.kingSq weakSide
  let pawnSquare := sq0 (pos.pawns weakSide)
  let result : Int := pushClose (distance winnerKingSquare loserKingSquare)
  let result :=
    if relative_rank weakSide pawnSquare ≠ 6
       ∨ distance loserKingSquare pawnSquare ≠ 1
       ∨ (file_of pawnSquare ≠ 0 ∧ file_of pawnSquare ≠ 2
          ∧ file_of pawnSquare ≠ 5 ∧ file_of pawnSquare ≠ 7)
    then result + (QueenValueEg - PawnValueEg) else result
  if strongSide = pos.sideToMove then result else -result

/-- KQ vs KR (Endgame<KQKR>::operator()). -/
def evalKQKR (strongSide : Color) (pos : Position) : Int :=
  let winnerKingSquare := pos.kingSq strongSide
  let loserKingSquare := pos.kingSq strongSide.opp
  let result : Int :=
    QueenValueEg - RookValueEg
    + pushToEdges loserKingSquare
    + pushClose (distance winnerKingSquare loserKingSquare)
  if strongSide = pos.sideToMove then result else -result

/-- KNN vs K (Endgame<KNNK>::operator()), a trivial draw. -/
def evalKNNK (_strongSide : Color) (_pos : Position) : Int := VALUE_DRAW

/-- KB and one or more pawns vs K (Endgame<KBPsK>::operator()). -/
def evalKBPsK (strongSide : Color) (pos : Position) : Int :=
  let weakSide := strongSide.opp
  let pawns := pos.pawns strongSide
  let pawnFile := file_of (sq0 pawns)
  let bishopSquare := sq0 (pos.bishops strongSide)
  let queeningSquare := relative_square strongSide (56 + pawnFile)
  let kingSquare := pos.kingSq weakSide
  if (pawnFile = 0 ∨ pawnFile = 7) ∧ (∀ s ∈ pawns, file_of s = pawnFile)
     ∧ opposite_colors queeningSquare bishopSquare
     ∧ distance queeningSquare kingSquare ≤ 1
  then SCALE_FACTOR_DRAW
  else if (pawnFile = 1 ∨ pawnFile = 6)
          ∧ (∀ s ∈ pos.pawns strongSide ++ pos.pawns weakSide, file_of s = pawnFile)
          ∧ pos.nonPawnMaterial weakSide = 0
          ∧ 1 ≤ pos.pawnCount weakSide
          ∧ (let weakPawnSquare := backmost_sq weakSide (pos.pawns weakSide)
             let strongKingSquare := pos.kingSq strongSide
             relative_rank strongSide weakPawnSquare = 6
             ∧ shiftSq weakPawnSquare (pawn_push weakSide) ∈ pos.pawns strongSide
             ∧ (opposite_colors bishopSquare weakPawnSquare ∨ pos.pawnCount strongSide = 1)
             ∧ 6 ≤ relative_rank strongSide kingSquare
             ∧ distance weakPawnSquare kingSquare ≤ 2
             ∧ distance weakPawnSquare kingSquare ≤ distance weakPawnSquare strongKingSquare)
  then SCALE_FACTOR_DRAW
  else SCALE_FACTOR_NONE

/-- KQ vs KR and one or more pawns (Endgame<KQKRPs>::operator()). -/
def evalKQKRPs (strongSide : Color) (pos : Position) : Int :=
  let weakSide := strongSide.opp
  let kingSquare := pos.kingSq weakSide
  let rookSquare := sq0 (pos.rooks weakSide)
  if relative_rank weakSide kingSquare ≤ 1
     ∧ 3 ≤ relative_rank weakSide (pos.kingSq strongSide)
     ∧ relative_rank weakSide rookSquare = 2
     ∧ ∃ p ∈ pos.pawns weakSide, kingAttack kingSquare p ∧ pawnAttack strongSide rookSquare p
  then SCALE_FACTOR_DRAW
  else SCALE_FACTOR_NONE

/-- KRP vs KR (Endgame<KRPKR>::operator()). -/
def evalKRPKR (strongSide : Color) (pos : Position) : Int :=
  let weakSide := strongSide.opp
  let whiteKingSquare := normalize pos strongSide (pos.kingSq strongSide)
  let blackKingSquare := normalize pos strongSide (pos.kingSq weakSide)
  let whiteRookSquare := normalize pos strongSide (sq0 (pos.rooks strongSide))
  let whitePawnSquare := normalize pos strongSide (sq0 (pos.pawns strongSide))
  let blackRookSquare := normalize pos strongSide (sq0 (pos.rooks weakSide))
  let file := file_of whitePawnSquare
  let rank := rank_of whitePawnSquare
  let queeningSquare := 56 + file
  let tempo : Nat := if pos.sideToMove = strongSide then 1 else 0
  if rank ≤ 4
     ∧ distance blackKingSquare queeningSquare ≤ 1
     ∧ whiteKingSquare ≤ 39
     ∧ (rank_of blackRookSquare = 5 ∨ (rank ≤ 2 ∧ rank_of whiteRookSquare ≠ 5))
  then SCALE_FACTOR_DRAW
  else if rank = 5
          ∧ distance blackKingSquare queeningSquare ≤ 1
          ∧ rank_of whiteKingSquare + tempo ≤ 5
          ∧ (rank_of blackRookSquare = 0
             ∨ (tempo = 0 ∧ 3 ≤ natDist (file_of blackRookSquare) file))
  then SCALE_FACTOR_DRAW
  else if 5 ≤ rank
          ∧ blackKingSquare = queeningSquare
          ∧ rank_of blackRookSquare = 0
          ∧ (tempo = 0 ∨ 2 ≤ distance whiteKingSquare whitePawnSquare)
  then SCALE_FACTOR_DRAW
  else if whitePawnSquare = 48 ∧ whiteRookSquare = 56
          ∧ (blackKingSquare = 55 ∨ blackKingSquare = 54)
          ∧ file_of blackRookSquare = 0
          ∧ (rank_of blackRookSquare ≤ 2
             ∨ 3 ≤ file_of whiteKingSquare
             ∨ rank_of whiteKingSquare ≤ 4)
  then SCALE_FACTOR_DRAW
  else if rank ≤ 4
          ∧ blackKingSquare = whitePawnSquare + 8
          ∧ 2 ≤ (distance whiteKingSquare whitePawnSquare : Int) - tempo
          ∧ 2 ≤ (distance whiteKingSquare blackRookSquare : Int) - tempo
  then SCALE_FACTOR_DRAW
  else if rank = 6
          ∧ file ≠ 0
          ∧ file_of whiteRookSquare = file
          ∧ whiteRookSquare ≠ queeningSquare
          ∧ (distance whiteKingSquare queeningSquare : Int)
              < (distance blackKingSquare queeningSquare : Int) - 2 + tempo
          ∧ (distance whiteKingSquare queeningSquare : Int)
              < (distance blackKingSquare whiteRookSquare : Int) + tempo
  then SCALE_FACTOR_MAX - 2 * (distance whiteKingSquare queeningSquare : Int)
  else if file ≠ 0
          ∧ file_of whiteRookSquare = file
          ∧ whiteRookSquare < whitePawnSquare
          ∧ (distance whiteKingSquare queeningSquare : Int)
              < (distance blackKingSquare queeningSquare : Int) - 2 + tempo
          ∧ (distance whiteKingSquare (whitePawnSquare + 8) : Int)
              < (distance blackKingSquare (whitePawnSquare + 8) : Int) - 2 + tempo
          ∧ (3 ≤ (distance blackKingSquare whiteRookSquare : Int) + tempo
             ∨ ((distance whiteKingSquare queeningSquare : Int)
                   < (distance blackKingSquare whiteRookSquare : Int) + tempo
                ∧ (distance whiteKingSquare (whitePawnSquare + 8) : Int)
                   < (distance blackKingSquare whiteRookSquare : Int) + tempo))
  then SCALE_FACTOR_MAX
       - 8 * (distance whitePawnSquare queeningSquare : Int)
       - 2 * (distance whiteKingSquare queeningSquare : Int)
  else if rank ≤ 3 ∧ whitePawnSquare < blackKingSquare then
    if file_of blackKingSquare = file_of whitePawnSquare then (10 : Int)
    else if fileDistance blackKingSquare whitePawnSquare = 1
            ∧ 2 < distance whiteKingSquare blackKingSquare
    then 24 - 2 * (distance whiteKingSquare blackKingSquare : Int)
    else SCALE_FACTOR_NONE
  else SCALE_FACTOR_NONE

/-- KRP vs KB (Endgame<KRPKB>::operator()). -/
def evalKRPKB (strongSide : Color) (pos : Position) : Int :=
  let weakSide := strongSide.opp
  if ∃ p ∈ pos.pawns strongSide ++ pos.pawns weakSide, file_of p = 0 ∨ file_of p = 7 then
    let kingSquare := pos.kingSq weakSide
    let bishopSquare := sq0 (pos.bishops weakSide)
    let pawnSquare := sq0 (pos.pawns strongSide)
    let rank := relative_rank strongSide pawnSquare
    let push := pawn_push strongSide
    if rank = 4 ∧ ¬opposite_colors bishopSquare pawnSquare then
      let kingDistance := distance (shiftSq pawnSquare (3 * push)) kingSquare
      if kingDistance ≤ 2
         ∧ ¬(kingDistance = 0
             ∧ (kingSquare : Int) = (pos.kingSq strongSide : Int) + 2 * push)
      then (24 : Int) else (48 : Int)
    else if rank = 5
            ∧ distance (shiftSq pawnSquare (2 * push)) kingSquare ≤ 1
            ∧ bishopAttack (fun _ => false) bishopSquare (shiftSq pawnSquare push)
            ∧ 2 ≤ fileDistance bishopSquare pawnSquare
    then (8 : Int)
    else SCALE_FACTOR_NONE
  else SCALE_FACTOR_NONE

/-- The graded lookup table of the KRPP vs KRP evaluator, indexed by the
more advanced strong pawn's relative rank.  Rank indices outside the
switch's cases hit the assert(false) branch, which in a release build
falls through to SCALE_FACTOR_NONE. -/
def krppkrpTable (rank : Nat) : Int :=
  if rank = 1 then 10
  else if rank = 2 then 10
  else if rank = 3 then 15
  else if rank = 4 then 20
  else if rank = 5 then 40
  else SCALE_FACTOR_NONE

/-- KRPP vs KRP (Endgame<KRPPKRP>::operator()). -/
def evalKRPPKRP (strongSide : Color) (pos : Position) : Int :=
  let weakSide := strongSide.opp
  let whitePawnSquare1 := sq0 (pos.pawns strongSide)
  let whitePawnSquare2 := (pos.pawns strongSide).getD 1 0
  let blackKingSquare := pos.kingSq weakSide
  if pawn_passed pos strongSide whitePawnSquare1
     ∨ pawn_passed pos strongSide whitePawnSquare2
  then SCALE_FACTOR_NONE
  else
    let rank := max (relative_rank strongSide whitePawnSquare1)
                    (relative_rank strongSide whitePawnSquare2)
    if fileDistance blackKingSquare whitePawnSquare1 ≤ 1
       ∧ fileDistance blackKingSquare whitePawnSquare2 ≤ 1
       ∧ rank < relative_rank strongSide blackKingSquare
    then krppkrpTable rank
    else SCALE_FACTOR_NONE

/-- K and two or more pawns vs K (Endgame<KPsK>::operator()). -/
def evalKPsK (strongSide : Color) (pos : Position) : Int :=
  let weakSide := strongSide.opp
  let kingSquare := pos.kingSq weakSide
  let pawnSquare := sq0 (pos.pawns strongSide)
  if (∀ p ∈ pos.pawns strongSide, inFrontRank weakSide (rank_of kingSquare) p)
     ∧ ((∀ p ∈ pos.pawns strongSide, file_of p = 0)
        ∨ (∀ p ∈ pos.pawns strongSide, file_of p = 7))
     ∧ fileDistance kingSquare pawnSquare ≤ 1
  then SCALE_FACTOR_DRAW
  else SCALE_FACTOR_NONE

/-- KBP vs KB (Endgame<KBPKB>::operator()). -/
def evalKBPKB (strongSide : Color) (pos : Position) : Int :=
  let weakSide := strongSide.opp
  let pawnSquare := sq0 (pos.pawns strongSide)
  let strongBishopSquare := sq0 (pos.bishops strongSide)
  let weakBishopSquare := sq0 (pos.bishops weakSide)
  let weakKingSquare := pos.kingSq weakSide
  if file_of weakKingSquare = file_of pawnSquare
     ∧ relative_rank strongSide pawnSquare < relative_rank strongSide weakKingSquare
     ∧ (opposite_colors weakKingSquare strongBishopSquare
        ∨ relative_rank strongSide weakKingSquare ≤ 5)
  then SCALE_FACTOR_DRAW
  else if opposite_colors strongBishopSquare weakBishopSquare then
    if relative_rank strongSide pawnSquare ≤ 4 then SCALE_FACTOR_DRAW
    else if forwardSq strongSide pawnSquare weakKingSquare then SCALE_FACTOR_DRAW
    else if (∃ t ∈ List.range 64,
               bishopAttack pos.occupied weakBishopSquare t ∧ forwardSq strongSide pawnSquare t)
            ∧ 3 ≤ distance weakBishopSquare pawnSquare
    then SCALE_FACTOR_DRAW
    else SCALE_FACTOR_NONE
  else SCALE_FACTOR_NONE

/-- KBPP vs KB (Endgame<KBPPKB>::operator()). -/
def evalKBPPKB (strongSide : Color) (pos : Position) : Int :=
  let weakSide := strongSide.opp
  let whiteBishopSquare := sq0 (pos.bishops strongSide)
  let blackBishopSquare := sq0 (pos.bishops weakSide)
  if ¬opposite_colors whiteBishopSquare blackBishopSquare then SCALE_FACTOR_NONE
  else
    let kingSquare := pos.kingSq weakSide
    let pawnSquare1 := sq0 (pos.pawns strongSide)
    let pawnSquare2 := (pos.pawns strongSide).getD 1 0
    let rank1 := rank_of pawnSquare1
    let rank2 := rank_of pawnSquare2
    let blockSquare1 :=
      if relative_rank strongSide pawnSquare2 < relative_rank strongSide pawnSquare1
      then shiftSq pawnSquare1 (pawn_push strongSide)
      else shiftSq pawnSquare2 (pawn_push strongSide)
    let blockSquare2 :=
      if relative_rank strongSide pawnSquare2 < relative_rank strongSide pawnSquare1
      then 8 * rank_of pawnSquare1 + file_of pawnSquare2
      else 8 * rank_of pawnSquare2 + file_of pawnSquare1
    if fileDistance pawnSquare1 pawnSquare2 = 0 then
      if file_of kingSquare = file_of blockSquare1
         ∧ relative_rank strongSide blockSquare1 ≤ relative_rank strongSide kingSquare
         ∧ opposite_colors kingSquare whiteBishopSquare
      then SCALE_FACTOR_DRAW
      else SCALE_FACTOR_NONE
    else if fileDistance pawnSquare1 pawnSquare2 = 1 then
      if kingSquare = blockSquare1
         ∧ opposite_colors kingSquare whiteBishopSquare
         ∧ (blackBishopSquare = blockSquare2
            ∨ (∃ b ∈ pos.bishops weakSide, bishopAttack pos.occupied blockSquare2 b)
            ∨ 2 ≤ natDist rank1 rank2)
      then SCALE_FACTOR_DRAW
      else if kingSquare = blockSquare2
              ∧ opposite_colors kingSquare whiteBishopSquare
              ∧ (blackBishopSquare = blockSquare1
                 ∨ (∃ b ∈ pos.bishops weakSide, bishopAttack pos.occupied blockSquare1 b))
      then SCALE_FACTOR_DRAW
      else SCALE_FACTOR_NONE
    else SCALE_FACTOR_NONE

/-- KBP vs KN (Endgame<KBPKN>::operator()). -/
def evalKBPKN (strongSide : Color) (pos : Position) : Int :=
  let weakSide := strongSide.opp
  let pawnSquare := sq0 (pos.pawns strongSide)
  let strongBishopSquare := sq0 (pos.bishops strongSide)
  let weakKingSquare := pos.kingSq weakSide
  if file_of weakKingSquare = file_of pawnSquare
     ∧ relative_rank strongSide pawnSquare < relative_rank strongSide weakKingSquare
     ∧ (opposite_colors weakKingSquare strongBishopSquare
        ∨ relative_rank strongSide weakKingSquare ≤ 5)
  then SCALE_FACTOR_DRAW
  else SCALE_FACTOR_NONE

/-- KNP vs K (Endgame<KNPK>::operator()). -/
def evalKNPK (strongSide : Color) (pos : Position) : Int :=
  let pawnSquare := normalize pos strongSide (sq0 (pos.pawns strongSide))
  let weakKingSquare := normalize pos strongSide (pos.kingSq strongSide.opp)
  if pawnSquare = 48 ∧ distance 56 weakKingSquare ≤ 1
  then SCALE_FACTOR_DRAW
  else SCALE_FACTOR_NONE

/-- KNP vs KB (Endgame<KNPKB>::operator()). -/
def evalKNPKB (strongSide : Color) (pos : Position) : Int :=
  let weakSide := strongSide.opp
  let pawnSquare := sq0 (pos.pawns strongSide)
  let bishopSquare := sq0 (pos.bishops weakSide)
  let weakKingSquare := pos.kingSq weakSide
  if ∃ t ∈ List.range 64,
       forwardSq strongSide pawnSquare t ∧ bishopAttack pos.occupied bishopSquare t
  then (distance weakKingSquare pawnSquare : Int)
  else SCALE_FACTOR_NONE

/-- KP vs KP (Endgame<KPKP>::operator()).  The bitbase is an external
collaborator and is passed in as the function probe. -/
def evalKPKP (probe : Nat → Nat → Nat → Color → Bool)
    (strongSide : Color) (pos : Position) : Int :=
  let weakSide := strongSide.opp
  let whiteKingSquare := normalize pos strongSide (pos.kingSq strongSide)
  let blackKingSquare := normalize pos strongSide (pos.kingSq weakSide)
  let pawnSquare := normalize pos strongSide (sq0 (pos.pawns strongSide))
  let us : Color := if strongSide = pos.sideToMove then Color.white else Color.black
  if 4 ≤ rank_of pawnSquare ∧ file_of pawnSquare ≠ 0 then SCALE_FACTOR_NONE
  else if probe whiteKingSquare pawnSquare blackKingSquare us
  then SCALE_FACTOR_NONE
  else SCALE_FACTOR_DRAW

/-- Build a position from side to move, the two king squares, and the piece
lists (pawns, knights, bishops, rooks, queens, white list before black list). -/
def mkPos (stm : Color) (wk bk : Nat) (wp bp wn bn wb bbp wr br wq bq : List Nat) :
    Position :=
  ⟨stm, wk, bk, wp, bp, wn, bn, wb, bbp, wr, br, wq, bq⟩

/-- KP vs K: white Ke6, pawn e4, black Kg8, white to move. -/
def posKPK : Position :=
  mkPos Color.white 44 62 [28] [] [] [] [] [] [] [] [] []

/-- KR vs KP: white Kh8 and Rh1, black Ke3 and pawn b3, white to move. -/
def posKRKPw : Position :=
  mkPos Color.white 63 20 [] [17] [] [] [] [] [7] [] [] []

/-- The same KR vs KP board with black to move. -/
def posKRKPb : Position :=
  mkPos Color.black 63 20 [] [17] [] [] [] [] [7] [] [] []

/-- KQ vs K: white Kc6 and Qb6, black Ka8, white to move. -/
def posKQK : Position :=
  mkPos Color.white 42 56 [] [] [] [] [] [] [] [] [41] []

/-- KRPP vs KRP: white Ke2, Ra1, pawns c4 and d4; black Kd5, Rh8, pawn c5;
white to move. -/
def posKRPPKRP : Position :=
  mkPos Color.white 12 35 [26, 27] [34] [] [] [] [] [0] [63] [] []

/-- KP vs K with Black as the strong side and the pawn on the right half:
black Ke5 and pawn g4, white Ke3. -/
def posKPKblack : Position :=
  mkPos Color.white 20 36 [] [30] [] [] [] [] [] [] [] []

/-- The normalized frame of posKPKblack: the strong pawn, normalized, on b5. -/
def posKPKblackN : Position :=
  mkPos Color.white 20 36 [33] [] [] [] [] [] [] [] [] []

/-- KQ vs KP: white Kh8 and Qh6, black Kb1 and pawn c2, white to move. -/
def posKQKPc : Position :=
  mkPos Color.white 63 1 [] [10] [] [] [] [] [] [] [47] []

/-- KRP vs KR: white Kb8, Rb2, pawn b7; black Kg3, Rh1; white to move.
The strong king stands on the queening square b8. -/
def posKRPKRmax : Position :=
  mkPos Color.white 57 22 [49] [] [] [] [] [] [9] [7] [] []

/-- KRP vs KR: white Kc8, Rb2, pawn b7; black Kg3, Rh1; white to move. -/
def posKRPKRnear : Position :=
  mkPos Color.white 58 22 [49] [] [] [] [] [] [9] [7] [] []

/-- KB and pawns vs K plus extra weak material: white Ka1, Bd2, pawns a5
and a6; black Kb8 and Re5; white to move. -/
def posKBPsK : Position :=
  mkPos Color.white 0 57 [32, 40] [] [] [] [11] [] [] [36] [] []

/-- KNP vs KB: white Ka1, Nb3, pawn g6; black Kh8, Be5; white to move. -/
def posKNPKB : Position :=
  mkPos Color.white 0 63 [46] [] [17] [] [] [36] [] [] [] []

/-! Basic lemmas about the board geometry and the position accessors. -/

theorem opp_white : Color.white.opp = Color.black := rfl

theorem opp_black : Color.black.opp = Color.white := rfl

theorem natDist_le_seven {x y : Nat} (hx : x ≤ 7) (hy : y ≤ 7) : natDist x y ≤ 7 := by
  unfold natDist; split <;> omega

theorem distance_le_seven {a b : Nat} (ha : a < 64) (hb : b < 64) :
    distance a b ≤ 7 := by
  unfold distance
  exact Nat.max_le.mpr
    ⟨natDist_le_seven (by unfold file_of; omega) (by unfold file_of; omega),
     natDist_le_seven (by unfold rank_of; omega) (by unfold rank_of; omega)⟩

theorem distance_eq_zero {a b : Nat} (ha : a < 64) (hb : b < 64) :
    distance a b = 0 ↔ a = b := by
  unfold distance natDist file_of rank_of
  constructor
  · intro h
    rw [Nat.max_eq_zero_iff] at h
    obtain ⟨h1, h2⟩ := h
    split_ifs at h1 h2 <;> omega
  · intro h; subst h; simp

theorem distance_self (a : Nat) : distance a a = 0 := by
  simp [distance, natDist]

theorem mirrorH_lt : ∀ s < 64, mirrorH s < 64 := by decide

theorem mirrorH_file : ∀ s < 64, file_of (mirrorH s) = 7 - file_of s := by decide

theorem mirrorH_rank : ∀ s < 64, rank_of (mirrorH s) = rank_of s := by decide

theorem mirrorV_lt : ∀ s < 64, mirrorV s < 64 := by decide

theorem mirrorV_file : ∀ s < 64, file_of (mirrorV s) = file_of s := by decide

theorem mirrorV_rank : ∀ s < 64, rank_of (mirrorV s) = 7 - rank_of s := by decide

theorem normalize_lt (pos : Position) (c : Color) {s : Nat} (hs : s < 64) :
    normalize pos c s < 64 := by
  unfold normalize
  split_ifs with h1 h2 h2 <;>
    first
      | exact mirrorV_lt _ (mirrorH_lt _ hs)
      | exact mirrorH_lt _ hs
      | exact mirrorV_lt _ hs
      | exact hs

theorem normalize_white_left (pos : Position)
    (hfile : file_of (sq0 (pos.pawns Color.white)) ≤ 3) (s : Nat) :
    normalize pos Color.white s = s := by
  have h4 : ¬ 4 ≤ file_of (sq0 (pos.pawns Color.white)) := by omega
  simp only [normalize, if_neg h4]
  simp

theorem sq0_lt {l : List Nat} (h : ∀ s ∈ l, s < 64) : sq0 l < 64 := by
  cases l with
  | nil => norm_num [sq0]
  | cons x xs => exact h x (List.mem_cons_self x xs)

theorem kingSq_lt (pos : Position) (c : Color) (h64 : ∀ s ∈ pos.allSquares, s < 64) :
    pos.kingSq c < 64 := by
  cases c
  · exact h64 pos.whiteKing (by simp [Position.allSquares])
  · exact h64 pos.blackKing (by simp [Position.allSquares])

theorem pawns_lt (pos : Position) (c : Color) (h64 : ∀ s ∈ pos.allSquares, s < 64) :
    ∀ s ∈ pos.pawns c, s < 64 := by
  intro s hs
  apply h64
  cases c <;> simp [Position.allSquares, Position.pawns] at hs ⊢ <;> tauto

theorem rooks_lt (pos : Position) (c : Color) (h64 : ∀ s ∈ pos.allSquares, s < 64) :
    ∀ s ∈ pos.rooks c, s < 64 := by
  intro s hs
  apply h64
  cases c <;> simp [Position.allSquares, Position.rooks] at hs ⊢ <;> tauto

theorem flipStm_stm (pos : Position) : (flipStm pos).sideToMove = pos.sideToMove.opp := rfl

theorem flipStm_kingSq (pos : Position) (c : Color) :
    (flipStm pos).kingSq c = pos.kingSq c := by cases c <;> rfl

theorem flipStm_pawns (pos : Position) (c : Color) :
    (flipStm pos).pawns c = pos.pawns c := by cases c <;> rfl

theorem flipStm_knights (pos : Position) (c : Color) :
    (flipStm pos).knights c = pos.knights c := by cases c <;> rfl

theorem flipStm_bishops (pos : Position) (c : Color) :
    (flipStm pos).bishops c = pos.bishops c := by cases c <;> rfl

theorem flipStm_rooks (pos : Position) (c : Color) :
    (flipStm pos).rooks c = pos.rooks c := by cases c <;> rfl

theorem flipStm_queens (pos : Position) (c : Color) :
    (flipStm pos).queens c = pos.queens c := by cases c <;> rfl

/-! Claim C1. -/

/-- C1: for every KP vs K position meeting the material precondition, the
evaluator normalizes the strong king, pawn and weak king squares and probes
the bitbase with them and the side to move; if the probe reports no win it
returns exactly VALUE_DRAW, and otherwise it returns
VALUE_KNOWN_WIN + PawnValueEg + the normalized pawn's rank index, negated
when the weak side is to move. -/
theorem kpk_eval_formula (probe : Nat → Nat → Nat → Color → Bool)
    (c : Color) (pos : Position) (p : Nat)
    (hp : pos.pawns c = [p])
    (hsm : pos.knights c = [] ∧ pos.bishops c = [] ∧ pos.rooks c = []
           ∧ pos.queens c = [])
    (hwm : pos.pawns c.opp = [] ∧ pos.knights c.opp = [] ∧ pos.bishops c.opp = []
           ∧ pos.rooks c.opp = [] ∧ pos.queens c.opp = []) :
    (probe (normalize pos c (pos.kingSq c)) (normalize pos c p)
        (normalize pos c (pos.kingSq c.opp))
        (if c = pos.sideToMove then Color.white else Color.black) = false →
      evalKPK probe c pos = VALUE_DRAW)
    ∧ (probe (normalize pos c (pos.kingSq c)) (normalize pos c p)
        (normalize pos c (pos.kingSq c.opp))
        (if c = pos.sideToMove then Color.white else Color.black) = true →
      evalKPK probe c pos
        = (if c = pos.sideToMove then (1 : Int) else -1)
          * (VALUE_KNOWN_WIN + PawnValueEg + (rank_of (normalize pos c p) : Int))) := by
  constructor <;> intro h
  · simp only [evalKPK, hp, sq0, List.headD_cons]
    rw [if_pos h]
  · simp only [evalKPK, hp, sq0, List.headD_cons, h]
    by_cases hc : c = pos.sideToMove <;> simp [hc]

/-- Witness for C1 at a concrete KP vs K position with a probe reporting
no win: the evaluator returns the drawn score. -/
theorem kpk_eval_formula_witness :
    evalKPK (fun _ _ _ _ => false) Color.white posKPK = VALUE_DRAW :=
  (kpk_eval_formula (fun _ _ _ _ => false) Color.white posKPK 28 (by decide)
    (by decide) (by decide)).1 (by decide)

/-! Claim C2. -/

/-- C2 counterexample: in the KR vs KP evaluator the side to move also
shifts the distance thresholds of the magnitude computation, so on the
board white Kh8, Rh1 versus black Ke3, pawn b3 the score with the strong
side to move (1272) is not the negation of the score with the weak side to
move (-192). -/
theorem value_sign_flip_counterexample :
    ¬ (evalKRKP Color.white posKRKPw = - evalKRKP Color.white (flipStm posKRKPw)) := by
  decide

/-- C2 (amended): the final sign flip negates the score under a swap of the
side to move for exactly those Value evaluators whose unsigned magnitude
never reads the side to move: KXK (provided the weak side, when it is to
move, has a legal move, so the stalemate guard does not fire), KBNK, KRKB,
KRKN, KQKP, KQKR and KNNK.  For KPK and KRKP the magnitude itself depends
on the side to move (through the bitbase probe and through tempo-shifted
thresholds), and for KXK the stalemate guard may return a drawn score, so
the exact-negation property does not extend to them. -/
theorem value_sign_flip (lm : Position → Nat) (c : Color) (pos : Position)
    (h1 : pos.sideToMove = c.opp → lm pos ≠ 0)
    (h2 : (flipStm pos).sideToMove = c.opp → lm (flipStm pos) ≠ 0) :
    evalKXK lm c (flipStm pos) = - evalKXK lm c pos
    ∧ evalKBNK c (flipStm pos) = - evalKBNK c pos
    ∧ evalKRKB c (flipStm pos) = - evalKRKB c pos
    ∧ evalKRKN c (flipStm pos) = - evalKRKN c pos
    ∧ evalKQKP c (flipStm pos) = - evalKQKP c pos
    ∧ evalKQKR c (flipStm pos) = - evalKQKR c pos
    ∧ evalKNNK c (flipStm pos) = - evalKNNK c pos := by
  refine ⟨?_, ?_, ?_, ?_, ?_, ?_, ?_⟩
  · cases c <;> cases hstm : pos.sideToMove
    · have hg2 : lm (flipStm pos) ≠ 0 := h2 (by simp [flipStm_stm, hstm, Color.opp])
      simp [evalKXK, flipStm_stm, flipStm_kingSq, flipStm_pawns, flipStm_knights,
            flipStm_bishops, flipStm_rooks, flipStm_queens, hstm, Color.opp,
            Position.nonPawnMaterial, Position.pawnCount, Position.knightCount,
            Position.bishopCount, Position.rookCount, Position.queenCount,
            Position.bishopPair, hg2]
    · have hg : lm pos ≠ 0 := h1 (by simp [hstm, Color.opp])
      simp [evalKXK, flipStm_stm, flipStm_kingSq, flipStm_pawns, flipStm_knights,
            flipStm_bishops, flipStm_rooks, flipStm_queens, hstm, Color.opp,
            Position.nonPawnMaterial, Position.pawnCount, Position.knightCount,
            Position.bishopCount, Position.rookCount, Position.queenCount,
            Position.bishopPair, hg]
    · have hg : lm pos ≠ 0 := h1 (by simp [hstm, Color.opp])
      simp [evalKXK, flipStm_stm, flipStm_kingSq, flipStm_pawns, flipStm_knights,
            flipStm_bishops, flipStm_rooks, flipStm_queens, hstm, Color.opp,
            Position.nonPawnMaterial, Position.pawnCount, Position.knightCount,
            Position.bishopCount, Position.rookCount, Position.queenCount,
            Position.bishopPair, hg]
    · have hg2 : lm (flipStm pos) ≠ 0 := h2 (by simp [flipStm_stm, hstm, Color.opp])
      simp [evalKXK, flipStm_stm, flipStm_kingSq, flipStm_pawns, flipStm_knights,
            flipStm_bishops, flipStm_rooks, flipStm_queens, hstm, Color.opp,
            Position.nonPawnMaterial, Position.pawnCount, Position.knightCount,
            Position.bishopCount, Position.rookCount, Position.queenCount,
            Position.bishopPair, hg2]
  · cases c <;> cases hstm : pos.sideToMove <;>
      simp [evalKBNK, flipStm_stm, flipStm_kingSq, flipStm_bishops, hstm, Color.opp]
  · cases c <;> cases hstm : pos.sideToMove <;>
      simp [evalKRKB, flipStm_stm, flipStm_kingSq, hstm, Color.opp]
  · cases c <;> cases hstm : pos.sideToMove <;>
      simp [evalKRKN, flipStm_stm, flipStm_kingSq, flipStm_knights, hstm, Color.opp]
  · cases c <;> cases hstm : pos.sideToMove <;>
      simp [evalKQKP, flipStm_stm, flipStm_kingSq, flipStm_pawns, hstm, Color.opp]
  · cases c <;> cases hstm : pos.sideToMove <;>
      simp [evalKQKR, flipStm_stm, flipStm_kingSq, hstm, Color.opp]
  · simp [evalKNNK, VALUE_DRAW]

/-- Witness for the amended C2 at the concrete KQ vs K board white Kc6 and
Qb6 versus black Ka8 with a move generator reporting one legal move. -/
theorem value_sign_flip_witness :
    evalKXK (fun _ => 1) Color.white (flipStm posKQK)
        = - evalKXK (fun _ => 1) Color.white posKQK
    ∧ evalKBNK Color.white (flipStm posKQK) = - evalKBNK Color.white posKQK
    ∧ evalKRKB Color.white (flipStm posKQK) = - evalKRKB Color.white posKQK
    ∧ evalKRKN Color.white (flipStm posKQK) = - evalKRKN Color.white posKQK
    ∧ evalKQKP Color.white (flipStm posKQK) = - evalKQKP Color.white posKQK
    ∧ evalKQKR Color.white (flipStm posKQK) = - evalKQKR Color.white posKQK
    ∧ evalKNNK Color.white (flipStm posKQK) = - evalKNNK Color.white posKQK :=
  value_sign_flip (fun _ => 1) Color.white posKQK (fun _ => one_ne_zero)
    (fun _ => one_ne_zero)

/-! Claim C3. -/

/-- C3: for every KX vs K position (lone weak king) in which the stalemate
guard does not fire, the KXK evaluator returns, up to the final sign flip,
the strong side's non-pawn material plus pawn count times the endgame pawn
value plus the edge-pull table entry at the weak king's square plus the
closeness table entry at the king distance, with VALUE_KNOWN_WIN added if
and only if the strong side has a queen, a rook, both a bishop and a
knight, or a bishop pair; in particular with no pawns and a single minor
piece no bonus is added and the magnitude is exactly the non-pawn material
plus the two table entries. -/
theorem kxk_eval_formula (lm : Position → Nat) (c : Color) (pos : Position)
    (hwm : pos.pawns c.opp = [] ∧ pos.knights c.opp = [] ∧ pos.bishops c.opp = []
           ∧ pos.rooks c.opp = [] ∧ pos.queens c.opp = [])
    (hns : ¬ (pos.sideToMove = c.opp ∧ lm pos = 0)) :
    evalKXK lm c pos
      = (if c = pos.sideToMove then (1 : Int) else -1)
        * (pos.nonPawnMaterial c + (pos.pawnCount c : Int) * PawnValueEg
           + pushToEdges (pos.kingSq c.opp)
           + pushClose (distance (pos.kingSq c) (pos.kingSq c.opp))
           + (if 0 < pos.queenCount c ∨ 0 < pos.rookCount c
                 ∨ (0 < pos.bishopCount c ∧ 0 < pos.knightCount c)
                 ∨ pos.bishopPair c
              then VALUE_KNOWN_WIN else 0))
    ∧ ((pos.pawnCount c = 0 ∧ pos.queenCount c = 0 ∧ pos.rookCount c = 0
        ∧ pos.bishopCount c + pos.knightCount c = 1) →
       evalKXK lm c pos
         = (if c = pos.sideToMove then (1 : Int) else -1)
           * (pos.nonPawnMaterial c + pushToEdges (pos.kingSq c.opp)
              + pushClose (distance (pos.kingSq c) (pos.kingSq c.opp)))) := by
  have part1 : evalKXK lm c pos
      = (if c = pos.sideToMove then (1 : Int) else -1)
        * (pos.nonPawnMaterial c + (pos.pawnCount c : Int) * PawnValueEg
           + pushToEdges (pos.kingSq c.opp)
           + pushClose (distance (pos.kingSq c) (pos.kingSq c.opp))
           + (if 0 < pos.queenCount c ∨ 0 < pos.rookCount c
                 ∨ (0 < pos.bishopCount c ∧ 0 < pos.knightCount c)
                 ∨ pos.bishopPair c
              then VALUE_KNOWN_WIN else 0)) := by
    simp only [evalKXK, if_neg hns]
    by_cases hb : 0 < pos.queenCount c ∨ 0 < pos.rookCount c
        ∨ (0 < pos.bishopCount c ∧ 0 < pos.knightCount c) ∨ pos.bishopPair c
    · simp only [if_pos hb]
      by_cases hc : c = pos.sideToMove
      · simp only [if_pos hc]; ring
      · simp only [if_neg hc]; ring
    · simp only [if_neg hb]
      by_cases hc : c = pos.sideToMove
      · simp only [if_pos hc]; ring
      · simp only [if_neg hc]; ring
  refine ⟨part1, fun hcounts => ?_⟩
  obtain ⟨hp0, hq0, hr0, hbn⟩ := hcounts
  have hbfalse : ¬ (0 < pos.queenCount c ∨ 0 < pos.rookCount c
      ∨ (0 < pos.bishopCount c ∧ 0 < pos.knightCount c) ∨ pos.bishopPair c) := by
    have hb2 : ¬ pos.bishopPair c := by
      intro hpair
      have := hpair.1
      unfold Position.bishopCount at hbn
      omega
    intro hcon
    rcases hcon with h | h | h | h
    · omega
    · omega
    · omega
    · exact hb2 h
  rw [part1, if_neg hbfalse, hp0]
  push_cast
  ring

/-- Witness for C3 at the concrete KQ vs K board white Kc6 and Qb6 versus
black Ka8, white to move: 2521 + 100 + 100 + 10000 = 12721. -/
theorem kxk_eval_formula_witness :
    evalKXK (fun _ => 1) Color.white posKQK = 12721 := by
  have h := kxk_eval_formula (fun _ => 1) Color.white posKQK (by decide) (by decide)
  rw [h.1]
  decide

/-! Claim C6. -/

theorem normalize_pawn_file_le (pos : Position) (c : Color) (p : Nat)
    (hp : pos.pawns c = [p]) (hlt : p < 64) :
    file_of (normalize pos c p) ≤ 3 := by
  unfold normalize
  rw [hp]
  simp only [sq0, List.headD_cons]
  by_cases h4 : 4 ≤ file_of p
  · rw [if_pos h4]
    by_cases hb : c = Color.black
    · rw [if_pos hb, mirrorV_file _ (mirrorH_lt _ hlt), mirrorH_file _ hlt]; omega
    · rw [if_neg hb, mirrorH_file _ hlt]; omega
  · rw [if_neg h4]
    by_cases hb : c = Color.black
    · rw [if_pos hb, mirrorV_file _ hlt]; omega
    · rw [if_neg hb]; omega

/-- C6: normalize is idempotent under the symmetry group it quotients by:
the normalized pawn lands on the left half-board, so re-normalizing any
already-normalized square in the normalized frame (where the strong side
has become the first-moving color and the pawn keeps its normalized file)
returns that square unchanged: neither the horizontal mirror (the pawn's
file is no longer in the right half) nor the vertical mirror (the strong
side is no longer the second-moving color) applies again. -/
theorem normalize_idempotent (pos posN : Position) (c : Color) (p s : Nat)
    (hp : pos.pawns c = [p]) (hlt : p < 64)
    (hpN : posN.pawns Color.white = [normalize pos c p]) :
    normalize posN Color.white (normalize pos c s) = normalize pos c s := by
  have hfile : file_of (sq0 (posN.pawns Color.white)) ≤ 3 := by
    rw [hpN]
    simp only [sq0, List.headD_cons]
    exact normalize_pawn_file_le pos c p hp hlt
  exact normalize_white_left posN hfile _

/-- Witness for C6: Black as strong side with its pawn on g4 (right half,
so both mirrors fire); the black king square e5 normalizes to d4 and
renormalizing it in the normalized frame leaves it unchanged. -/
theorem normalize_idempotent_witness :
    normalize posKPKblackN Color.white (normalize posKPKblack Color.black 36)
      = normalize posKPKblack Color.black 36 :=
  normalize_idempotent posKPKblack posKPKblackN Color.black 30 36 (by decide)
    (by decide) (by decide)

/-! Claim C7. -/

/-- C7 counterexample: the KQ vs KP fortress test accepts files A, C, F and
H, not only the rook files.  On the board white Kh8 and Qh6 versus black
Kb1 and pawn c2 (a bishop-file pawn on its second-to-last rank with the
weak king adjacent), the evaluator withholds the material difference and
returns only the closeness bonus 10, not the claimed closeness bonus plus
QueenValueEg - PawnValueEg. -/
theorem kqkp_counterexample :
    evalKQKP Color.white posKQKPc
      ≠ pushClose (distance (posKQKPc.kingSq Color.white) (posKQKPc.kingSq Color.black))
        + (QueenValueEg - PawnValueEg) := by
  decide

/-- C7 (amended): for every KQ vs KP position meeting the material
precondition, the magnitude is the closeness table entry at the king
distance, with the full queen-minus-pawn material difference added unless
the weak pawn stands on file A, C, F or H at its second-to-last relative
rank with the weak king at distance exactly 1 from it. -/
theorem kqkp_eval_formula (c : Color) (pos : Position) (p : Nat)
    (hp : pos.pawns c.opp = [p])
    (hsm : pos.queenCount c = 1 ∧ pos.pawnCount c = 0 ∧ pos.knightCount c = 0
           ∧ pos.bishopCount c = 0 ∧ pos.rookCount c = 0)
    (hwm : pos.queenCount c.opp = 0 ∧ pos.knightCount c.opp = 0
           ∧ pos.bishopCount c.opp = 0 ∧ pos.rookCount c.opp = 0) :
    evalKQKP c pos
      = (if c = pos.sideToMove then (1 : Int) else -1)
        * (pushClose (distance (pos.kingSq c) (pos.kingSq c.opp))
           + (if relative_rank c.opp p = 6 ∧ distance (pos.kingSq c.opp) p = 1
                 ∧ (file_of p = 0 ∨ file_of p = 2 ∨ file_of p = 5 ∨ file_of p = 7)
              then 0 else QueenValueEg - PawnValueEg)) := by
  simp only [evalKQKP, hp, sq0, List.headD_cons]
  by_cases hF : relative_rank c.opp p = 6 ∧ distance (pos.kingSq c.opp) p = 1
      ∧ (file_of p = 0 ∨ file_of p = 2 ∨ file_of p = 5 ∨ file_of p = 7)
  · have hD : ¬ (relative_rank c.opp p ≠ 6 ∨ distance (pos.kingSq c.opp) p ≠ 1
        ∨ (file_of p ≠ 0 ∧ file_of p ≠ 2 ∧ file_of p ≠ 5 ∧ file_of p ≠ 7)) := by
      tauto
    rw [if_neg hD, if_pos hF]
    by_cases hc : c = pos.sideToMove
    · simp only [if_pos hc]; ring
    · simp only [if_neg hc]; ring
  · have hD : relative_rank c.opp p ≠ 6 ∨ distance (pos.kingSq c.opp) p ≠ 1
        ∨ (file_of p ≠ 0 ∧ file_of p ≠ 2 ∧ file_of p ≠ 5 ∧ file_of p ≠ 7) := by
      tauto
    rw [if_pos hD, if_neg hF]
    by_cases hc : c = pos.sideToMove
    · simp only [if_pos hc]; ring
    · simp only [if_neg hc]; ring

/-- Witness for the amended C7 at the bishop-file fortress board: only the
closeness bonus is returned. -/
theorem kqkp_eval_formula_witness :
    evalKQKP Color.white posKQKPc = 10 := by
  rw [kqkp_eval_formula Color.white posKQKPc 10 (by decide) (by decide) (by decide)]
  decide

/-! Claim C9. -/

/-- C9: the KBPsK rook-file draw rule is independent of the weak side's
material: whenever the strong side's non-pawn material is a single bishop,
all strong pawns stand on one rook file, the bishop's square color differs
from the queening square's color and the weak king is within distance 1 of
the queening square, the evaluator returns the force-a-draw scale factor,
with no constraint at all on the weak side's pieces or pawns. -/
theorem kbpsk_rook_file_draw (c : Color) (pos : Position) (f q : Nat)
    (rest : List Nat)
    (hpawns : pos.pawns c = q :: rest)
    (hall : ∀ s ∈ pos.pawns c, file_of s = f)
    (hf : f = 0 ∨ f = 7)
    (hsm : pos.bishopCount c = 1 ∧ pos.knightCount c = 0 ∧ pos.rookCount c = 0
           ∧ pos.queenCount c = 0)
    (hbc : opposite_colors (relative_square c (56 + f)) (sq0 (pos.bishops c)))
    (hkd : distance (relative_square c (56 + f)) (pos.kingSq c.opp) ≤ 1) :
    evalKBPsK c pos = SCALE_FACTOR_DRAW := by
  have hq : file_of (sq0 (pos.pawns c)) = f := by
    rw [hpawns]
    simp only [sq0, List.headD_cons]
    exact hall q (by rw [hpawns]; exact List.mem_cons_self q rest)
  simp only [evalKBPsK]
  rw [hq]
  rw [if_pos ⟨hf, hall, hbc, hkd⟩]

/-- Witness for C9: bishop d2 with pawns a5 and a6 against a weak side that
still owns a rook on e5 and has its king on b8 next to the queening square
a8: the evaluator forces a draw. -/
theorem kbpsk_rook_file_draw_witness :
    evalKBPsK Color.white posKBPsK = SCALE_FACTOR_DRAW :=
  kbpsk_rook_file_draw Color.white posKBPsK 0 32 [40] (by decide) (by decide)
    (by decide) (by decide) (by decide) (by decide)

/-! Claims C4 and C5. -/

theorem relative_rank_white (s : Nat) : relative_rank Color.white s = rank_of s := rfl

theorem relative_rank_black {s : Nat} (hs : s < 64) :
    relative_rank Color.black s = 7 - rank_of s := by
  unfold relative_rank relative_square
  rw [if_neg (by simp)]
  exact mirrorV_rank s hs

/-- A pawn standing on its seventh relative rank is always passed when
every enemy pawn stands on one of the ranks 2..7 of its own frame
(absolute rank indices 1..6). -/
theorem rank7_pawn_passed (pos : Position) (c : Color) {s : Nat} (hs : s < 64)
    (hranks : ∀ e ∈ pos.pawns c.opp, 1 ≤ rank_of e ∧ rank_of e ≤ 6)
    (h7 : relative_rank c s = 6) :
    pawn_passed pos c s := by
  intro e he hcon
  obtain ⟨hfd, hif⟩ := hcon
  obtain ⟨he1, he6⟩ := hranks e he
  cases c with
  | white =>
    rw [relative_rank_white] at h7
    unfold inFrontRank at hif
    rw [if_pos rfl] at hif
    omega
  | black =>
    rw [relative_rank_black hs] at h7
    unfold inFrontRank at hif
    rw [if_neg (by simp)] at hif
    omega

/-- C5: in the KRPP vs KRP evaluator, for every position whose pawns all
stand on ranks 2..7 of their own side's frame, whenever control reaches
the rank-indexed lookup table the selected rank index lies in 1..5 (the
engine's RANK_2..RANK_6), so the assertion-failure default branch of the
switch is unreachable: a strong pawn on its seventh relative rank is
always passed and triggers the early sentinel return. -/
theorem krppkrp_rank_in_range (c : Color) (pos : Position) (p1 p2 : Nat)
    (hp : pos.pawns c = [p1, p2]) (hp1 : p1 < 64) (hp2 : p2 < 64)
    (hranks : ∀ s ∈ pos.pawns c ++ pos.pawns c.opp, 1 ≤ rank_of s ∧ rank_of s ≤ 6)
    (hnp : ¬ (pawn_passed pos c p1 ∨ pawn_passed pos c p2))
    (hguard : fileDistance (pos.kingSq c.opp) p1 ≤ 1
              ∧ fileDistance (pos.kingSq c.opp) p2 ≤ 1
              ∧ max (relative_rank c p1) (relative_rank c p2)
                  < relative_rank c (pos.kingSq c.opp)) :
    1 ≤ max (relative_rank c p1) (relative_rank c p2)
    ∧ max (relative_rank c p1) (relative_rank c p2) ≤ 5 := by
  have hmem1 : p1 ∈ pos.pawns c := by rw [hp]; simp
  have hmem2 : p2 ∈ pos.pawns c := by rw [hp]; simp
  have hr1 := hranks p1 (List.mem_append_left _ hmem1)
  have hr2 := hranks p2 (List.mem_append_left _ hmem2)
  have hopp : ∀ e ∈ pos.pawns c.opp, 1 ≤ rank_of e ∧ rank_of e ≤ 6 :=
    fun e he => hranks e (List.mem_append_right _ he)
  have hrel1 : 1 ≤ relative_rank c p1 ∧ relative_rank c p1 ≤ 6 := by
    cases c with
    | white => rw [relative_rank_white]; exact hr1
    | black => rw [relative_rank_black hp1]; omega
  have hrel2 : 1 ≤ relative_rank c p2 ∧ relative_rank c p2 ≤ 6 := by
    cases c with
    | white => rw [relative_rank_white]; exact hr2
    | black => rw [relative_rank_black hp2]; omega
  constructor
  · omega
  · by_contra hgt
    have h6 : relative_rank c p1 = 6 ∨ relative_rank c p2 = 6 := by omega
    rcases h6 with h6 | h6
    · exact hnp (Or.inl (rank7_pawn_passed pos c hp1 hopp h6))
    · exact hnp (Or.inr (rank7_pawn_passed pos c hp2 hopp h6))

/-- Witness for C5 at the concrete KRPP vs KRP board white Ke2, Ra1, pawns
c4 and d4 versus black Kd5, Rh8, pawn c5: the selected rank index is 3. -/
theorem krppkrp_rank_in_range_witness :
    1 ≤ max (relative_rank Color.white 26) (relative_rank Color.white 27)
    ∧ max (relative_rank Color.white 26) (relative_rank Color.white 27) ≤ 5 :=
  krppkrp_rank_in_range Color.white posKRPPKRP 26 27 (by decide) (by decide)
    (by decide) (by decide) (by decide) (by decide)

/-- C4: for every KRPP vs KRP position, if either strong pawn is passed the
evaluator returns the sentinel; otherwise, if the weak king is within one
file of both strong pawns and its relative rank strictly exceeds the more
advanced pawn's relative rank, it returns the rank-indexed table value
(10, 10, 15, 20, 40 for the engine's RANK_2..RANK_6, rank indices 1..5);
in all remaining cases it returns the sentinel. -/
theorem krppkrp_eval (c : Color) (pos : Position) (p1 p2 : Nat)
    (hp : pos.pawns c = [p1, p2])
    (hmat : pos.rookCount c = 1 ∧ pos.rookCount c.opp = 1 ∧ pos.pawnCount c.opp = 1
            ∧ pos.queenCount c = 0 ∧ pos.queenCount c.opp = 0
            ∧ pos.bishopCount c = 0 ∧ pos.bishopCount c.opp = 0
            ∧ pos.knightCount c = 0 ∧ pos.knightCount c.opp = 0) :
    ((pawn_passed pos c p1 ∨ pawn_passed pos c p2) →
      evalKRPPKRP c pos = SCALE_FACTOR_NONE)
    ∧ (¬ (pawn_passed pos c p1 ∨ pawn_passed pos c p2) →
        (fileDistance (pos.kingSq c.opp) p1 ≤ 1
         ∧ fileDistance (pos.kingSq c.opp) p2 ≤ 1
         ∧ max (relative_rank c p1) (relative_rank c p2)
             < relative_rank c (pos.kingSq c.opp)) →
        evalKRPPKRP c pos
          = krppkrpTable (max (relative_rank c p1) (relative_rank c p2)))
    ∧ (¬ (pawn_passed pos c p1 ∨ pawn_passed pos c p2) →
        ¬ (fileDistance (pos.kingSq c.opp) p1 ≤ 1
           ∧ fileDistance (pos.kingSq c.opp) p2 ≤ 1
           ∧ max (relative_rank c p1) (relative_rank c p2)
               < relative_rank c (pos.kingSq c.opp)) →
        evalKRPPKRP c pos = SCALE_FACTOR_NONE)
    ∧ krppkrpTable 1 = 10 ∧ krppkrpTable 2 = 10 ∧ krppkrpTable 3 = 15
    ∧ krppkrpTable 4 = 20 ∧ krppkrpTable 5 = 40 := by
  have hsq0 : sq0 (pos.pawns c) = p1 := by rw [hp]; rfl
  have hgetD : (pos.pawns c).getD 1 0 = p2 := by rw [hp]; rfl
  refine ⟨?_, ?_, ?_, by decide, by decide, by decide, by decide, by decide⟩
  · intro hpass
    simp only [evalKRPPKRP, hsq0, hgetD]
    rw [if_pos hpass]
  · intro hpass hguard
    simp only [evalKRPPKRP, hsq0, hgetD]
    rw [if_neg hpass, if_pos hguard]
  · intro hpass hguard
    simp only [evalKRPPKRP, hsq0, hgetD]
    rw [if_neg hpass, if_neg hguard]

/-- Witness for C4: at the board white Ke2, Ra1, pawns c4 and d4 versus
black Kd5, Rh8, pawn c5 no strong pawn is passed, the weak king is within
one file of both pawns and strictly ahead of them, and the evaluator
returns the table value 15 for rank index 3 (the engine's RANK_4). -/
theorem krppkrp_eval_witness :
    evalKRPPKRP Color.white posKRPPKRP = 15 := by
  have h := krppkrp_eval Color.white posKRPPKRP 26 27 (by decide) (by decide)
  rw [h.2.1 (by decide) (by decide)]
  decide

/-! Claim C8. -/

/-- C8 counterexample: on the board white Kb8, Rb2, pawn b7 versus black
Kg3, Rh1 with white to move, the pawn stands on its 7th rank supported
from behind by the rook and the strong king (distance 0 to the queening
square) is closer to the queening square than the weak king (distance 5)
by more than 2 - tempo, yet the evaluator returns exactly the maximum
scale factor, not a value strictly below it. -/
theorem krpkr_seventh_rank_counterexample :
    evalKRPKR Color.white posKRPKRmax = SCALE_FACTOR_MAX := by
  decide

/-- C8 (amended): in the normalized strong-side-as-White frame, when the
pawn is on its 7th rank on a file other than the rook file, supported from
behind by the strong rook on the same file (rook not on the queening
square), the strong king is closer to the queening square than the weak
king by more than 2 - tempo, and additionally the strong king's distance
to the queening square is less than the weak king's distance to the strong
rook plus tempo, the evaluator returns exactly
SCALE_FACTOR_MAX - 2 * distance(strong king, queening square): a graded
factor that is strictly decreasing in that distance and strictly below the
maximum whenever the strong king is off the queening square (at the
queening square itself it equals the maximum). -/
theorem krpkr_seventh_rank_graded (pos : Position) (p r br : Nat)
    (hp : pos.pawns Color.white = [p])
    (hr : pos.rooks Color.white = [r])
    (hbr : pos.rooks Color.black = [br])
    (hfile : file_of p ≤ 3) (hfile0 : file_of p ≠ 0) (hrank : rank_of p = 6)
    (hrfile : file_of r = file_of p) (hrqs : r ≠ 56 + file_of p)
    (hwk : pos.kingSq Color.white < 64) (hbk : pos.kingSq Color.black < 64)
    (hrb : br < 64)
    (g1 : (distance (pos.kingSq Color.white) (56 + file_of p) : Int)
            < (distance (pos.kingSq Color.black) (56 + file_of p) : Int) - 2
              + (if pos.sideToMove = Color.white then 1 else 0))
    (g2 : (distance (pos.kingSq Color.white) (56 + file_of p) : Int)
            < (distance (pos.kingSq Color.black) r : Int)
              + (if pos.sideToMove = Color.white then 1 else 0)) :
    evalKRPKR Color.white pos
      = SCALE_FACTOR_MAX
        - 2 * (distance (pos.kingSq Color.white) (56 + file_of p) : Int)
    ∧ (pos.kingSq Color.white ≠ 56 + file_of p →
        evalKRPKR Color.white pos < SCALE_FACTOR_MAX) := by
  have hnorm : ∀ s, normalize pos Color.white s = s := by
    intro s
    apply normalize_white_left
    rw [hp]; exact hfile
  have heval : evalKRPKR Color.white pos
      = SCALE_FACTOR_MAX
        - 2 * (distance (pos.kingSq Color.white) (56 + file_of p) : Int) := by
    simp only [evalKRPKR, hnorm, hp, hr, hbr, sq0, List.headD_cons, Color.opp, hrank,
      Nat.cast_ite, Nat.cast_one, Nat.cast_zero]
    have hc1 : ¬ ((6 : Nat) ≤ 4 ∧ distance (pos.kingSq Color.black) (56 + file_of p) ≤ 1
        ∧ pos.kingSq Color.white ≤ 39 ∧ (rank_of br = 5 ∨ (6 : Nat) ≤ 2 ∧ rank_of r ≠ 5)) :=
      fun h => absurd h.1 (by norm_num)
    have hc2 : ¬ ((6 : Nat) = 5 ∧ distance (pos.kingSq Color.black) (56 + file_of p) ≤ 1
        ∧ rank_of (pos.kingSq Color.white)
            + (if pos.sideToMove = Color.white then 1 else 0) ≤ 5
        ∧ (rank_of br = 0 ∨ (if pos.sideToMove = Color.white then 1 else 0) = (0 : Nat)
            ∧ 3 ≤ natDist (file_of br) (file_of p))) :=
      fun h => absurd h.1 (by norm_num)
    have hc3 : ¬ ((5 : Nat) ≤ 6 ∧ pos.kingSq Color.black = 56 + file_of p
        ∧ rank_of br = 0
        ∧ ((if pos.sideToMove = Color.white then 1 else 0) = (0 : Nat)
           ∨ 2 ≤ distance (pos.kingSq Color.white) p)) := by
      intro h
      rw [h.2.1, distance_self] at g1
      by_cases hstm : pos.sideToMove = Color.white <;> simp [hstm] at g1 <;> omega
    have hc4 : ¬ (p = 48 ∧ r = 56
        ∧ (pos.kingSq Color.black = 55 ∨ pos.kingSq Color.black = 54)
        ∧ file_of br = 0
        ∧ (rank_of br ≤ 2 ∨ 3 ≤ file_of (pos.kingSq Color.white)
           ∨ rank_of (pos.kingSq Color.white) ≤ 4)) := by
      intro h
      apply hfile0
      rw [h.1]
      rfl
    have hc5 : ¬ ((6 : Nat) ≤ 4 ∧ pos.kingSq Color.black = p + 8
        ∧ (2 : Int) ≤ (distance (pos.kingSq Color.white) p : Int)
            - (if pos.sideToMove = Color.white then 1 else 0)
        ∧ (2 : Int) ≤ (distance (pos.kingSq Color.white) br : Int)
            - (if pos.sideToMove = Color.white then 1 else 0)) :=
      fun h => absurd h.1 (by norm_num)
    rw [if_neg hc1, if_neg hc2, if_neg hc3, if_neg hc4, if_neg hc5,
        if_pos ⟨trivial, hfile0, hrfile, hrqs, g1, g2⟩]
  refine ⟨heval, fun hne => ?_⟩
  rw [heval]
  have hqs : 56 + file_of p < 64 := by omega
  have hd0 : distance (pos.kingSq Color.white) (56 + file_of p) ≠ 0 :=
    fun h => hne ((distance_eq_zero hwk hqs).mp h)
  have hd1 : 1 ≤ distance (pos.kingSq Color.white) (56 + file_of p) :=
    Nat.pos_of_ne_zero hd0
  unfold SCALE_FACTOR_MAX
  omega

/-- Witness for the amended C8: same board as the counterexample but with
the strong king on c8, one square away from the queening square: the
factor is 128 - 2 = 126, strictly below the maximum. -/
theorem krpkr_seventh_rank_graded_witness :
    evalKRPKR Color.white posKRPKRnear
        = SCALE_FACTOR_MAX - 2 * (distance 58 57 : Int)
    ∧ (58 ≠ 56 + file_of 49 →
        evalKRPKR Color.white posKRPKRnear < SCALE_FACTOR_MAX) := by
  have h := krpkr_seventh_rank_graded posKRPKRnear 49 9 7 (by decide) (by decide)
    (by decide) (by decide) (by decide) (by decide) (by decide) (by decide)
    (by decide) (by decide) (by decide) (by decide) (by decide)
  exact ⟨h.1, fun _ => h.2 (by decide)⟩

/-! Claim C10. -/


theorem range_KBPsK (c : Color) (pos : Position)
    (hne : evalKBPsK c pos ≠ SCALE_FACTOR_NONE) :
    evalKBPsK c pos = SCALE_FACTOR_DRAW
    ∨ (SCALE_FACTOR_DRAW < evalKBPsK c pos ∧ evalKBPsK c pos ≤ SCALE_FACTOR_MAX) := by
  obtain ⟨v, hv⟩ : ∃ v, evalKBPsK c pos = v := ⟨_, rfl⟩
  rw [hv] at hne ⊢
  simp only [evalKBPsK] at hv
  repeat' split at hv
  all_goals first
    | exact Or.inl hv.symm
    | exact absurd hv.symm hne

theorem range_KQKRPs (c : Color) (pos : Position)
    (hne : evalKQKRPs c pos ≠ SCALE_FACTOR_NONE) :
    evalKQKRPs c pos = SCALE_FACTOR_DRAW
    ∨ (SCALE_FACTOR_DRAW < evalKQKRPs c pos ∧ evalKQKRPs c pos ≤ SCALE_FACTOR_MAX) := by
  obtain ⟨v, hv⟩ : ∃ v, evalKQKRPs c pos = v := ⟨_, rfl⟩
  rw [hv] at hne ⊢
  simp only [evalKQKRPs] at hv
  repeat' split at hv
  all_goals first
    | exact Or.inl hv.symm
    | exact absurd hv.symm hne

theorem range_KPsK (c : Color) (pos : Position)
    (hne : evalKPsK c pos ≠ SCALE_FACTOR_NONE) :
    evalKPsK c pos = SCALE_FACTOR_DRAW
    ∨ (SCALE_FACTOR_DRAW < evalKPsK c pos ∧ evalKPsK c pos ≤ SCALE_FACTOR_MAX) := by
  obtain ⟨v, hv⟩ : ∃ v, evalKPsK c pos = v := ⟨_, rfl⟩
  rw [hv] at hne ⊢
  simp only [evalKPsK] at hv
  repeat' split at hv
  all_goals first
    | exact Or.inl hv.symm
    | exact absurd hv.symm hne

theorem range_KBPKB (c : Color) (pos : Position)
    (hne : evalKBPKB c pos ≠ SCALE_FACTOR_NONE) :
    evalKBPKB c pos = SCALE_FACTOR_DRAW
    ∨ (SCALE_FACTOR_DRAW < evalKBPKB c pos ∧ evalKBPKB c pos ≤ SCALE_FACTOR_MAX) := by
  obtain ⟨v, hv⟩ : ∃ v, evalKBPKB c pos = v := ⟨_, rfl⟩
  rw [hv] at hne ⊢
  simp only [evalKBPKB] at hv
  repeat' split at hv
  all_goals first
    | exact Or.inl hv.symm
    | exact absurd hv.symm hne

theorem range_KBPPKB (c : Color) (pos : Position)
    (hne : evalKBPPKB c pos ≠ SCALE_FACTOR_NONE) :
    evalKBPPKB c pos = SCALE_FACTOR_DRAW
    ∨ (SCALE_FACTOR_DRAW < evalKBPPKB c pos ∧ evalKBPPKB c pos ≤ SCALE_FACTOR_MAX) := by
  obtain ⟨v, hv⟩ : ∃ v, evalKBPPKB c pos = v := ⟨_, rfl⟩
  rw [hv] at hne ⊢
  simp only [evalKBPPKB] at hv
  repeat' split at hv
  all_goals first
    | exact Or.inl hv.symm
    | exact absurd hv.symm hne

theorem range_KBPKN (c : Color) (pos : Position)
    (hne : evalKBPKN c pos ≠ SCALE_FACTOR_NONE) :
    evalKBPKN c pos = SCALE_FACTOR_DRAW
    ∨ (SCALE_FACTOR_DRAW < evalKBPKN c pos ∧ evalKBPKN c pos ≤ SCALE_FACTOR_MAX) := by
  obtain ⟨v, hv⟩ : ∃ v, evalKBPKN c pos = v := ⟨_, rfl⟩
  rw [hv] at hne ⊢
  simp only [evalKBPKN] at hv
  repeat' split at hv
  all_goals first
    | exact Or.inl hv.symm
    | exact absurd hv.symm hne

theorem range_KNPK (c : Color) (pos : Position)
    (hne : evalKNPK c pos ≠ SCALE_FACTOR_NONE) :
    evalKNPK c pos = SCALE_FACTOR_DRAW
    ∨ (SCALE_FACTOR_DRAW < evalKNPK c pos ∧ evalKNPK c pos ≤ SCALE_FACTOR_MAX) := by
  obtain ⟨v, hv⟩ : ∃ v, evalKNPK c pos = v := ⟨_, rfl⟩
  rw [hv] at hne ⊢
  simp only [evalKNPK] at hv
  repeat' split at hv
  all_goals first
    | exact Or.inl hv.symm
    | exact absurd hv.symm hne

theorem range_KPKP (probe : Nat → Nat → Nat → Color → Bool) (c : Color) (pos : Position)
    (hne : evalKPKP probe c pos ≠ SCALE_FACTOR_NONE) :
    evalKPKP probe c pos = SCALE_FACTOR_DRAW
    ∨ (SCALE_FACTOR_DRAW < evalKPKP probe c pos
       ∧ evalKPKP probe c pos ≤ SCALE_FACTOR_MAX) := by
  obtain ⟨v, hv⟩ : ∃ v, evalKPKP probe c pos = v := ⟨_, rfl⟩
  rw [hv] at hne ⊢
  simp only [evalKPKP] at hv
  repeat' split at hv
  all_goals first
    | exact Or.inl hv.symm
    | exact absurd hv.symm hne

theorem range_KRPKB (c : Color) (pos : Position)
    (hne : evalKRPKB c pos ≠ SCALE_FACTOR_NONE) :
    evalKRPKB c pos = SCALE_FACTOR_DRAW
    ∨ (SCALE_FACTOR_DRAW < evalKRPKB c pos ∧ evalKRPKB c pos ≤ SCALE_FACTOR_MAX) := by
  obtain ⟨v, hv⟩ : ∃ v, evalKRPKB c pos = v := ⟨_, rfl⟩
  rw [hv] at hne ⊢
  simp only [evalKRPKB] at hv
  repeat' split at hv
  all_goals first
    | exact Or.inl hv.symm
    | exact absurd hv.symm hne
    | (refine Or.inr ?_
       rw [← hv]
       simp only [SCALE_FACTOR_DRAW, SCALE_FACTOR_MAX]
       norm_num)

theorem range_KRPPKRP (c : Color) (pos : Position)
    (hne : evalKRPPKRP c pos ≠ SCALE_FACTOR_NONE) :
    evalKRPPKRP c pos = SCALE_FACTOR_DRAW
    ∨ (SCALE_FACTOR_DRAW < evalKRPPKRP c pos ∧ evalKRPPKRP c pos ≤ SCALE_FACTOR_MAX) := by
  obtain ⟨v, hv⟩ : ∃ v, evalKRPPKRP c pos = v := ⟨_, rfl⟩
  rw [hv] at hne ⊢
  simp only [evalKRPPKRP, krppkrpTable] at hv
  repeat' split at hv
  all_goals first
    | exact Or.inl hv.symm
    | exact absurd hv.symm hne
    | (refine Or.inr ?_
       rw [← hv]
       simp only [SCALE_FACTOR_DRAW, SCALE_FACTOR_MAX]
       norm_num)

set_option maxHeartbeats 1600000 in
theorem rangeAux_KRPKR (c : Color) (pos : Position)
    (h64 : ∀ s ∈ pos.allSquares, s < 64) :
    evalKRPKR c pos = SCALE_FACTOR_NONE ∨ evalKRPKR c pos = SCALE_FACTOR_DRAW
    ∨ (SCALE_FACTOR_DRAW < evalKRPKR c pos ∧ evalKRPKR c pos ≤ SCALE_FACTOR_MAX) := by
  have hwk : pos.kingSq c < 64 := kingSq_lt pos c h64
  have hbk : pos.kingSq c.opp < 64 := kingSq_lt pos c.opp h64
  have hwp : sq0 (pos.pawns c) < 64 := sq0_lt (pawns_lt pos c h64)
  have hnw := normalize_lt pos c hwk
  have hnb := normalize_lt pos c hbk
  have hnp := normalize_lt pos c hwp
  have hqs : 56 + file_of (normalize pos c (sq0 (pos.pawns c))) < 64 := by
    unfold file_of; omega
  have dA := distance_le_seven hnw hqs
  have dB := distance_le_seven hnb hqs
  have dC := distance_le_seven hnp hqs
  have dD := distance_le_seven hnw hnb
  obtain ⟨v, hv⟩ : ∃ v, evalKRPKR c pos = v := ⟨_, rfl⟩
  rw [hv]
  have e1 : SCALE_FACTOR_NONE = 255 := rfl
  have e2 : SCALE_FACTOR_DRAW = 0 := rfl
  have e3 : SCALE_FACTOR_MAX = 128 := rfl
  simp only [evalKRPKR] at hv
  by_cases hstm : pos.sideToMove = c
  · simp only [if_pos hstm] at hv
    omega
  · simp only [if_neg hstm] at hv
    omega

theorem range_KRPKR (c : Color) (pos : Position)
    (h64 : ∀ s ∈ pos.allSquares, s < 64)
    (hne : evalKRPKR c pos ≠ SCALE_FACTOR_NONE) :
    evalKRPKR c pos = SCALE_FACTOR_DRAW
    ∨ (SCALE_FACTOR_DRAW < evalKRPKR c pos ∧ evalKRPKR c pos ≤ SCALE_FACTOR_MAX) :=
  (rangeAux_KRPKR c pos h64).resolve_left hne

theorem range_KNPKB (c : Color) (pos : Position)
    (h64 : ∀ s ∈ pos.allSquares, s < 64)
    (hkp : pos.kingSq c.opp ≠ sq0 (pos.pawns c))
    (hne : evalKNPKB c pos ≠ SCALE_FACTOR_NONE) :
    evalKNPKB c pos = SCALE_FACTOR_DRAW
    ∨ (SCALE_FACTOR_DRAW < evalKNPKB c pos ∧ evalKNPKB c pos ≤ SCALE_FACTOR_MAX) := by
  have hbk : pos.kingSq c.opp < 64 := kingSq_lt pos c.opp h64
  have hwp : sq0 (pos.pawns c) < 64 := sq0_lt (pawns_lt pos c h64)
  have hd7 : distance (pos.kingSq c.opp) (sq0 (pos.pawns c)) ≤ 7 :=
    distance_le_seven hbk hwp
  have hd0 : distance (pos.kingSq c.opp) (sq0 (pos.pawns c)) ≠ 0 :=
    fun h => hkp ((distance_eq_zero hbk hwp).mp h)
  obtain ⟨v, hv⟩ : ∃ v, evalKNPKB c pos = v := ⟨_, rfl⟩
  rw [hv] at hne ⊢
  simp only [evalKNPKB] at hv
  split at hv
  · refine Or.inr ?_
    rw [← hv]
    simp only [SCALE_FACTOR_DRAW, SCALE_FACTOR_MAX]
    omega
  · exact absurd hv.symm hne


/-- C10: every scale-factor evaluator stays inside the bounded ScaleFactor
range: on any position whose squares are on the board (and, for KNP vs KB,
whose weak king and strong pawn occupy distinct squares), every return
value other than the no-special-knowledge sentinel is either the
force-a-draw minimum or strictly above it and at most the maximum; in
particular the KRP vs KR graded formulas never go non-positive under their
guards and the KNP vs KB factor, the weak king's distance to the pawn, is
at least 1. -/
theorem scale_factor_range (probe : Nat → Nat → Nat → Color → Bool)
    (c : Color) (pos : Position)
    (h64 : ∀ s ∈ pos.allSquares, s < 64)
    (hkp : pos.kingSq c.opp ≠ sq0 (pos.pawns c)) :
    (evalKBPsK c pos ≠ SCALE_FACTOR_NONE →
      evalKBPsK c pos = SCALE_FACTOR_DRAW
      ∨ (SCALE_FACTOR_DRAW < evalKBPsK c pos ∧ evalKBPsK c pos ≤ SCALE_FACTOR_MAX))
    ∧ (evalKQKRPs c pos ≠ SCALE_FACTOR_NONE →
      evalKQKRPs c pos = SCALE_FACTOR_DRAW
      ∨ (SCALE_FACTOR_DRAW < evalKQKRPs c pos ∧ evalKQKRPs c pos ≤ SCALE_FACTOR_MAX))
    ∧ (evalKRPKR c pos ≠ SCALE_FACTOR_NONE →
      evalKRPKR c pos = SCALE_FACTOR_DRAW
      ∨ (SCALE_FACTOR_DRAW < evalKRPKR c pos ∧ evalKRPKR c pos ≤ SCALE_FACTOR_MAX))
    ∧ (evalKRPKB c pos ≠ SCALE_FACTOR_NONE →
      evalKRPKB c pos = SCALE_FACTOR_DRAW
      ∨ (SCALE_FACTOR_DRAW < evalKRPKB c pos ∧ evalKRPKB c pos ≤ SCALE_FACTOR_MAX))
    ∧ (evalKRPPKRP c pos ≠ SCALE_FACTOR_NONE →
      evalKRPPKRP c pos = SCALE_FACTOR_DRAW
      ∨ (SCALE_FACTOR_DRAW < evalKRPPKRP c pos ∧ evalKRPPKRP c pos ≤ SCALE_FACTOR_MAX))
    ∧ (evalKPsK c pos ≠ SCALE_FACTOR_NONE →
      evalKPsK c pos = SCALE_FACTOR_DRAW
      ∨ (SCALE_FACTOR_DRAW < evalKPsK c pos ∧ evalKPsK c pos ≤ SCALE_FACTOR_MAX))
    ∧ (evalKBPKB c pos ≠ SCALE_FACTOR_NONE →
      evalKBPKB c pos = SCALE_FACTOR_DRAW
      ∨ (SCALE_FACTOR_DRAW < evalKBPKB c pos ∧ evalKBPKB c pos ≤ SCALE_FACTOR_MAX))
    ∧ (evalKBPPKB c pos ≠ SCALE_FACTOR_NONE →
      evalKBPPKB c pos = SCALE_FACTOR_DRAW
      ∨ (SCALE_FACTOR_DRAW < evalKBPPKB c pos ∧ evalKBPPKB c pos ≤ SCALE_FACTOR_MAX))
    ∧ (evalKBPKN c pos ≠ SCALE_FACTOR_NONE →
      evalKBPKN c pos = SCALE_FACTOR_DRAW
      ∨ (SCALE_FACTOR_DRAW < evalKBPKN c pos ∧ evalKBPKN c pos ≤ SCALE_FACTOR_MAX))
    ∧ (evalKNPK c pos ≠ SCALE_FACTOR_NONE →
      evalKNPK c pos = SCALE_FACTOR_DRAW
      ∨ (SCALE_FACTOR_DRAW < evalKNPK c pos ∧ evalKNPK c pos ≤ SCALE_FACTOR_MAX))
    ∧ (evalKNPKB c pos ≠ SCALE_FACTOR_NONE →
      evalKNPKB c pos = SCALE_FACTOR_DRAW
      ∨ (SCALE_FACTOR_DRAW < evalKNPKB c pos ∧ evalKNPKB c pos ≤ SCALE_FACTOR_MAX))
    ∧ (evalKPKP probe c pos ≠ SCALE_FACTOR_NONE →
      evalKPKP probe c pos = SCALE_FACTOR_DRAW
      ∨ (SCALE_FACTOR_DRAW < evalKPKP probe c pos
         ∧ evalKPKP probe c pos ≤ SCALE_FACTOR_MAX)) :=
  ⟨range_KBPsK c pos, range_KQKRPs c pos,
   range_KRPKR c pos h64, range_KRPKB c pos, range_KRPPKRP c pos,
   range_KPsK c pos, range_KBPKB c pos, range_KBPPKB c pos,
   range_KBPKN c pos, range_KNPK c pos, range_KNPKB c pos h64 hkp,
   range_KPKP probe c pos⟩

/-- Witness for C10 at the concrete KNP vs KB board white Ka1, Nb3, pawn g6
versus black Kh8, Be5: all twelve scale evaluators stay inside the range
(the KNP vs KB one returns the graded factor 2 there). -/
theorem scale_factor_range_witness :
    evalKNPKB Color.white posKNPKB = SCALE_FACTOR_DRAW
    ∨ (SCALE_FACTOR_DRAW < evalKNPKB Color.white posKNPKB
       ∧ evalKNPKB Color.white posKNPKB ≤ SCALE_FACTOR_MAX) :=
  (scale_factor_range (fun _ _ _ _ => false) Color.white posKNPKB (by decide)
    (by decide)).2.2.2.2.2.2.2.2.2.2.1 (by decide)

end Stockfish
